import Mathlib

/-!
Verification of the Finvoice transaction-authorization control plane.

The definitions below are a shallow embedding of the Redis-backed control
plane of the Finvoice backend (`services/redis_service.py`,
`services/banking_service.py`, `auth/auth_manager.py`, `main.py`).

The shared TTL key-value store is modelled as an association list of
entries `(key, value, expiry)`, where `expiry = none` means "no TTL"
(as for keys created by a bare INCR) and `expiry = some e` means the
key vanishes at every instant `now` with `e ≤ now`.  Time is an
explicit `Nat` parameter (seconds); each Python method body is treated
as atomic with respect to the clock, matching the single-threaded
execution of one call.  Store unavailability (the `except` branches of
the Python code) is modelled by explicit fault flags.
-/

namespace Finvoice

/-- A TTL key-value store: entries `(key, value, expiry)`.  `expiry = none`
means the key has no TTL; `expiry = some e` means the key is treated as
absent at every time `now` with `e ≤ now` (Redis removes expired keys on
access). -/
abbrev KStore (α : Type) : Type := List (String × α × Option Nat)

namespace KStore

/-- Whether an entry with the given expiry is still live at time `now`. -/
def live (now : Nat) : Option Nat → Bool
  | none => true
  | some e => decide (now < e)

/-- Redis GET at time `now`: the first entry under the key, provided it has
not expired. -/
def get {α : Type} : KStore α → Nat → String → Option α
  | [], _, _ => none
  | e :: rest, now, k =>
    if e.1 == k then (if live now e.2.2 then some e.2.1 else none)
    else get rest now k

/-- Redis SETEX at time `now`: unconditionally overwrite the key with the
value and set its expiry to `now + ttlSec`. -/
def setex {α : Type} (st : KStore α) (now : Nat) (k : String) (ttlSec : Nat)
    (v : α) : KStore α :=
  (k, v, some (now + ttlSec)) :: st.filter (fun e => !(e.1 == k))

/-- Redis DEL: remove every entry under the key. -/
def del {α : Type} (st : KStore α) (k : String) : KStore α :=
  st.filter (fun e => !(e.1 == k))

/-- Redis TTL at time `now`: `-2` if the key is absent (or expired), `-1` if
it exists but has no TTL, otherwise the remaining seconds. -/
def ttlInt {α : Type} : KStore α → Nat → String → Int
  | [], _, _ => -2
  | e :: rest, now, k =>
    if e.1 == k then
      match e.2.2 with
      | none => -1
      | some exp => if now < exp then (exp : Int) - (now : Int) else -2
    else ttlInt rest now k

/-- Redis INCR at time `now`: increment a live counter preserving its expiry;
an absent (or expired) key is created at `1` with no TTL. -/
def incr : KStore Nat → Nat → String → KStore Nat
  | [], _, k => [(k, 1, none)]
  | e :: rest, now, k =>
    if e.1 == k then
      (if live now e.2.2 then (e.1, e.2.1 + 1, e.2.2) :: rest
       else (k, 1, none) :: rest)
    else e :: incr rest now k

/-- Redis EXISTS at time `now`, as a Boolean (`exists(key) > 0`). -/
def existsKey {α : Type} (st : KStore α) (now : Nat) (k : String) : Bool :=
  (get st now k).isSome

end KStore

/-! ## OTP Authority (`RedisService.store_otp` / `RedisService.verify_otp`) -/

/-- The serialized OTP record stored under `otp:{user_id}:{transaction_id}`
(`redis_service.py`, `store_otp`). -/
structure OTPData where
  otp : String
  transaction_id : String
  user_id : String
  attempts : Nat
deriving DecidableEq, Repr

/-- The result dictionary returned by `RedisService.verify_otp`. -/
structure OtpResult where
  valid : Bool
  message : String
  attempts_left : Nat
deriving DecidableEq, Repr

/-- The key `f"otp:{user_id}:{transaction_id}"`. -/
def otpKey (user_id transaction_id : String) : String :=
  "otp:" ++ user_id ++ ":" ++ transaction_id

/-- `RedisService.store_otp`: store the record with `attempts = 0` under the
OTP key with a TTL of `expiry_minutes` minutes (default 5). -/
def store_otp (st : KStore OTPData) (now : Nat) (user_id otp transaction_id : String)
    (expiry_minutes : Nat) : KStore OTPData :=
  KStore.setex st now (otpKey user_id transaction_id) (expiry_minutes * 60)
    { otp := otp, transaction_id := transaction_id, user_id := user_id, attempts := 0 }

/-- The dictionary returned from the `except` branch of `verify_otp`. -/
def otpFailClosed : OtpResult :=
  { valid := false, message := "OTP verification failed", attempts_left := 0 }

/-- Fault flags for the store operations issued by `verify_otp`: each flag
set means the corresponding Redis call raises (store unavailable for that
operation). -/
structure OtpFaults where
  getFails : Bool
  deleteFails : Bool
  ttlFails : Bool
  setexFails : Bool
deriving DecidableEq, Repr

/-- All store operations succeed. -/
def noFaults : OtpFaults := ⟨false, false, false, false⟩

/-- `RedisService.verify_otp` with explicit fault injection.  Returns the
result dictionary, the resulting store, and whether an exception was raised
(in which case the Python `except` branch produced the result).  A SETEX
with a non-positive expiry also raises in Redis, hence the `remaining_ttl`
guard. -/
def verify_otpE (fa : OtpFaults) (st : KStore OTPData) (now : Nat)
    (user_id transaction_id otp : String) (max_attempts : Nat) :
    OtpResult × KStore OTPData × Bool :=
  let otp_key := otpKey user_id transaction_id
  if fa.getFails then (otpFailClosed, st, true)
  else
    match KStore.get st now otp_key with
    | none =>
      ({ valid := false, message := "OTP expired or not found", attempts_left := 0 },
       st, false)
    | some otp_data =>
      if max_attempts ≤ otp_data.attempts then
        if fa.deleteFails then (otpFailClosed, st, true)
        else
          ({ valid := false, message := "Maximum OTP attempts exceeded", attempts_left := 0 },
           KStore.del st otp_key, false)
      else if otp_data.otp == otp then
        if fa.deleteFails then (otpFailClosed, st, true)
        else
          ({ valid := true, message := "OTP verified successfully",
             attempts_left := max_attempts - otp_data.attempts },
           KStore.del st otp_key, false)
      else
        if fa.ttlFails then (otpFailClosed, st, true)
        else
          let newData := { otp_data with attempts := otp_data.attempts + 1 }
          let remaining_ttl := KStore.ttlInt st now otp_key
          if fa.setexFails then (otpFailClosed, st, true)
          else if remaining_ttl ≤ 0 then (otpFailClosed, st, true)
          else
            let attempts_left := max_attempts - newData.attempts
            ({ valid := false,
               message := "Invalid OTP. " ++ toString attempts_left ++ " attempts left",
               attempts_left := attempts_left },
             KStore.setex st now otp_key remaining_ttl.toNat newData, false)

/-- `RedisService.verify_otp` with the store fully available. -/
def verify_otp (st : KStore OTPData) (now : Nat)
    (user_id transaction_id otp : String) (max_attempts : Nat) :
    OtpResult × KStore OTPData :=
  let r := verify_otpE noFaults st now user_id transaction_id otp max_attempts
  (r.1, r.2.1)

/-! ## Rate Limiter (`RedisService.check_rate_limit`) -/

/-- The result dictionary returned by `RedisService.check_rate_limit`.
`remaining` and `reset_in` are Python ints, hence `Int`. -/
structure RateResult where
  allowed : Bool
  remaining : Int
  reset_in : Int
deriving DecidableEq, Repr

/-- The key `f"rate:{user_id}:{action}"`. -/
def rateKey (user_id action : String) : String :=
  "rate:" ++ user_id ++ ":" ++ action

/-- The dictionary returned from the `except` branch of `check_rate_limit`
(fail open). -/
def rateFailOpen (max_requests window_minutes : Nat) : RateResult :=
  { allowed := true, remaining := (max_requests : Int),
    reset_in := ((window_minutes * 60 : Nat) : Int) }

/-- `RedisService.check_rate_limit`.  `avail = false` means the store is
unavailable: the first store operation raises and the `except` branch
returns the fail-open result.  A SETEX with a zero expiry also raises in
Redis (window of 0 minutes), landing in the same `except` branch. -/
def check_rate_limit (avail : Bool) (st : KStore Nat) (now : Nat)
    (user_id action : String) (max_requests window_minutes : Nat) :
    RateResult × KStore Nat :=
  if !avail then (rateFailOpen max_requests window_minutes, st)
  else
    let rate_key := rateKey user_id action
    match KStore.get st now rate_key with
    | none =>
      if window_minutes * 60 = 0 then (rateFailOpen max_requests window_minutes, st)
      else
        ({ allowed := true, remaining := (max_requests : Int) - 1,
           reset_in := ((window_minutes * 60 : Nat) : Int) },
         KStore.setex st now rate_key (window_minutes * 60) 1)
    | some count =>
      if max_requests ≤ count then
        ({ allowed := false, remaining := 0,
           reset_in := KStore.ttlInt st now rate_key }, st)
      else
        let st2 := KStore.incr st now rate_key
        ({ allowed := true, remaining := (max_requests : Int) - (count : Int) - 1,
           reset_in := KStore.ttlInt st2 now rate_key }, st2)

/-! ## Token Revocation List (`RedisService.blacklist_token` /
`RedisService.is_token_blacklisted`) -/

/-- The key `f"blacklist:{token}"`. -/
def blacklistKey (token : String) : String := "blacklist:" ++ token

/-- `RedisService.blacklist_token`: mark the token revoked for
`expiry_minutes` minutes (default 1440).  Returns the resulting store. -/
def blacklist_token (st : KStore String) (now : Nat) (token : String)
    (expiry_minutes : Nat) : KStore String :=
  KStore.setex st now (blacklistKey token) (expiry_minutes * 60) "1"

/-- `RedisService.is_token_blacklisted`: `exists(key) > 0`.  `avail = false`
means the store operation raises and the `except` branch returns `false`
(fail open). -/
def is_token_blacklisted (avail : Bool) (st : KStore String) (now : Nat)
    (token : String) : Bool :=
  if !avail then false else KStore.existsKey st now (blacklistKey token)

/-! ## Authentication dependency (`auth_manager.get_current_user`) -/

/-- The outcome of the FastAPI authentication dependency: either the user id
extracted from the token, or an `HTTPException` with a status code and
detail. -/
inductive AuthResult where
  | ok (user_id : String)
  | httpError (status : Nat) (detail : String)
deriving DecidableEq, Repr

/-- `auth_manager.get_current_user`.  `redis_service_present` models
`_redis_service` being wired in; `avail` models store reachability inside
`is_token_blacklisted` (which catches its own store errors and returns
`false`).  `verify_token` is the oracle for
`AuthManager.verify_token(token, "access")` followed by the `sub`
extraction: it yields `ok sub`, or the `httpError` that the surrounding
handler re-raises (non-HTTP exceptions are wrapped as status 401
"Authentication failed: ..." there, so every failure is a 401-class
`httpError`). -/
def get_current_user (redis_service_present avail : Bool) (bst : KStore String)
    (now : Nat) (verify_token : String → AuthResult) (token : String) :
    AuthResult :=
  if redis_service_present && is_token_blacklisted avail bst now token then
    .httpError 401 "Token has been revoked. Please login again."
  else
    verify_token token

/-! ## Session Manager (`RedisService.create_session` /
`RedisService.get_session`) -/

/-- The session payload stored under `session:{user_id}` in `main.py`.
`pending_transaction_id = none` models the dictionary not containing the
key at all (`'pending_transaction_id' in session` is false);
`some none` models the key being present with value `None` (as written by
the success branch of the voice OTP flow); `some (some t)` models a pending
transaction id `t`.  `extra` holds the remaining payload fields. -/
structure SessionData where
  pending_transaction_id : Option (Option String)
  extra : List (String × String)
deriving DecidableEq, Repr

/-- The key `f"session:{user_id}"`. -/
def sessionKey (user_id : String) : String := "session:" ++ user_id

/-- `RedisService.create_session`: SETEX of the JSON payload under the
session key with a TTL of `expiry_minutes` minutes.  Returns the resulting
store (the Python method returns the key string). -/
def create_session (st : KStore SessionData) (now : Nat) (user_id : String)
    (session_data : SessionData) (expiry_minutes : Nat) : KStore SessionData :=
  KStore.setex st now (sessionKey user_id) (expiry_minutes * 60) session_data

/-- `RedisService.get_session`: GET and deserialize, `none` if absent or
expired. -/
def get_session (st : KStore SessionData) (now : Nat) (user_id : String) :
    Option SessionData :=
  KStore.get st now (sessionKey user_id)

/-! ## Voice orchestrator OTP branch (`main.py`, `process_voice`) -/

/-- Python `str` applied to the value read from
`session['pending_transaction_id']`: `str(None) = "None"` inside the
f-string that builds the OTP key. -/
def pyStr : Option String → String
  | some s => s
  | none => "None"

/-- The OTP-verification branch of `process_voice` (`main.py`): read the
caller's session; if it holds a `pending_transaction_id` key, verify the
extracted OTP against that transaction with `max_attempts = 3`.  On a valid
verification the session's `pending_transaction_id` is set to `None` and
the session re-created with a 1440-minute TTL; on a failed verification the
session is left untouched.  Returns the `otp_status` string and the
resulting session and OTP stores. -/
def process_voice_otp (sst : KStore SessionData) (ost : KStore OTPData)
    (now : Nat) (current_user otp : String) :
    String × KStore SessionData × KStore OTPData :=
  match get_session sst now current_user with
  | none => ("no_transaction", sst, ost)
  | some session =>
    match session.pending_transaction_id with
    | none => ("no_transaction", sst, ost)
    | some tid =>
      let transaction_id := pyStr tid
      let v := verify_otp ost now current_user transaction_id otp 3
      if v.1.valid then
        let session2 := { session with pending_transaction_id := some none }
        ("verified", create_session sst now current_user session2 1440, v.2)
      else
        ("failed", sst, v.2)

/-! ## OTP issuance (`banking_service.transfer_money` + `main.py`) -/

/-- `banking_service.transfer_money`: `otp = str(random.randint(100000,
999999))`.  The random draw is an explicit oracle argument `draw`; the
sampling contract of `random.randint` is `100000 ≤ draw ≤ 999999`. -/
def generate_otp (draw : Nat) : String := toString draw

/-- OTP issuance for a transfer (`main.py`): after `transfer_money` returns
the freshly drawn code, `store_otp` records it under the (user,
transaction) key with a 5-minute TTL. -/
def issue_transfer_otp (st : KStore OTPData) (now : Nat)
    (user_id transaction_id : String) (draw : Nat) : KStore OTPData :=
  store_otp st now user_id (generate_otp draw) transaction_id 5

/-! ## Operation sequences -/

/-- Run a sequence of `verify_otp` calls for a fixed (user, transaction) key
and a fixed configured maximum: each element `(now, code)` of the list is
one verification call at time `now` submitting `code`.  Returns the list of
results and the final store. -/
def runVerifies (st : KStore OTPData) (user_id transaction_id : String)
    (max_attempts : Nat) : List (Nat × String) → List OtpResult × KStore OTPData
  | [] => ([], st)
  | (now, code) :: rest =>
    let r := verify_otp st now user_id transaction_id code max_attempts
    let rr := runVerifies r.2 user_id transaction_id max_attempts rest
    (r.1 :: rr.1, rr.2)

/-- Run a sequence of `check_rate_limit` calls for a fixed (identifier,
action) pair with the store available, one call per listed time.  Returns
the list of results and the final store. -/
def runChecks (st : KStore Nat) (user_id action : String)
    (max_requests window_minutes : Nat) : List Nat → List RateResult × KStore Nat
  | [] => ([], st)
  | now :: rest =>
    let r := check_rate_limit true st now user_id action max_requests window_minutes
    let rr := runChecks r.2 user_id action max_requests window_minutes rest
    (r.1 :: rr.1, rr.2)

/-- The expected result list for a run of in-window rate-limit checks that
start from a live counter value `count`: each call reads the counter,
increments it, and reports `max_requests - newCount` remaining and the
window TTL left at its call time. -/
def rateAllowedResults (max_requests exp : Nat) : Nat → List Nat → List RateResult
  | _, [] => []
  | count, now :: rest =>
    { allowed := true, remaining := (max_requests : Int) - (count : Int) - 1,
      reset_in := (exp : Int) - (now : Int) } ::
      rateAllowedResults max_requests exp (count + 1) rest

/-- An operation of the OTP Authority: issue (`store_otp`) or verify
(`verify_otp`), each stamped with its call time. -/
inductive OtpOp where
  | store (now : Nat) (user_id otp transaction_id : String) (expiry_minutes : Nat)
  | verify (now : Nat) (user_id transaction_id code : String)
deriving DecidableEq, Repr

/-- Apply one OTP Authority operation to the store, with a fixed configured
maximum number of attempts for verifications. -/
def applyOtpOp (max_attempts : Nat) (st : KStore OTPData) : OtpOp → KStore OTPData
  | .store now u o t em => store_otp st now u o t em
  | .verify now u t c => (verify_otp st now u t c max_attempts).2

/-- Apply a sequence of OTP Authority operations to the store. -/
def applyOtpOps (max_attempts : Nat) (st : KStore OTPData) :
    List OtpOp → KStore OTPData
  | [] => st
  | op :: rest => applyOtpOps max_attempts (applyOtpOp max_attempts st op) rest

/-- The OTP record invariant: every record present in the store has an
attempt counter at most the configured maximum. -/
def OtpInv (max_attempts : Nat) (st : KStore OTPData) : Prop :=
  ∀ e ∈ st, e.2.1.attempts ≤ max_attempts

instance (max_attempts : Nat) (st : KStore OTPData) :
    Decidable (OtpInv max_attempts st) := by
  unfold OtpInv; infer_instance

/-! ## Decimal representation of the OTP draw

Python `str(n)` for a natural number and Lean `toString n = Nat.repr n`
produce the same decimal string.  To reason about distinctness of freshly
drawn codes we prove `Nat.repr` injective via the decimal parse below. -/

/-- Parse a big-endian list of decimal digit characters back to a number. -/
def decimalVal (cs : List Char) : Nat :=
  cs.foldl (fun a c => a * 10 + (c.toNat - 48)) 0

/-! ## Store lemmas -/

/-- No entry of the store carries the key. -/
def KeyFree {α : Type} (k : String) (st : KStore α) : Prop :=
  ∀ e ∈ st, ¬(e.1 = k)

theorem filter_of_keyFree {α : Type} {k : String} {st : KStore α}
    (h : KeyFree k st) : st.filter (fun e => !(e.1 == k)) = st := by
  apply List.filter_eq_self.mpr
  intro a ha
  simpa using h a ha

theorem keyFree_filter {α : Type} (k : String) (st : KStore α) :
    KeyFree k (st.filter (fun e => !(e.1 == k))) := by
  intro e he hk
  have := (List.mem_filter.mp he).2
  simp [hk] at this

theorem get_del_self {α : Type} (st : KStore α) (k : String) (now : Nat) :
    KStore.get (KStore.del st k) now k = none := by
  induction st with
  | nil => rfl
  | cons e rest ih =>
    by_cases h : e.1 = k
    · simpa [KStore.del, List.filter_cons, h] using ih
    · simpa [KStore.del, List.filter_cons, h, KStore.get] using ih

theorem get_setex_live {α : Type} (st : KStore α) (now now2 ttl : Nat)
    (k : String) (v : α) (h : now2 < now + ttl) :
    KStore.get (KStore.setex st now k ttl v) now2 k = some v := by
  simp [KStore.setex, KStore.get, KStore.live, h]

theorem get_setex_dead {α : Type} (st : KStore α) (now now2 ttl : Nat)
    (k : String) (v : α) (h : now + ttl ≤ now2) :
    KStore.get (KStore.setex st now k ttl v) now2 k = none := by
  simp [KStore.setex, KStore.get, KStore.live, Nat.not_lt.mpr h]

theorem setex_key_entry {α : Type} (st : KStore α) (now ttl : Nat)
    (k : String) (v : α) :
    ∀ e ∈ KStore.setex st now k ttl v, e.1 = k → e = (k, v, some (now + ttl)) := by
  intro e he hk
  rcases List.mem_cons.mp he with h1 | h1
  · exact h1
  · exact absurd hk (keyFree_filter k st e h1)

/-! ## Claim C1 -/

/-- Claim C1: a verification call that finds a record whose attempt counter
is below the maximum and whose stored code equals the submitted code
returns `valid = true` with `attempts_left = max_attempts - attempts`, and
deletes the record: a subsequent GET on the key is absent at every time,
and replaying the same verification returns `valid = false` with message
"OTP expired or not found" and `attempts_left = 0`. -/
theorem verify_otp_success_deletes
    (st : KStore OTPData) (now : Nat) (u t : String) (d : OTPData) (m : Nat)
    (hget : KStore.get st now (otpKey u t) = some d)
    (hatt : d.attempts < m) :
    verify_otp st now u t d.otp m =
      ({ valid := true, message := "OTP verified successfully",
         attempts_left := m - d.attempts },
       KStore.del st (otpKey u t)) ∧
    (∀ now2, KStore.get (KStore.del st (otpKey u t)) now2 (otpKey u t) = none) ∧
    (∀ now3, verify_otp (KStore.del st (otpKey u t)) now3 u t d.otp m =
      ({ valid := false, message := "OTP expired or not found", attempts_left := 0 },
       KStore.del st (otpKey u t))) := by
  refine ⟨?_, fun now2 => get_del_self st (otpKey u t) now2, fun now3 => ?_⟩
  · simp [verify_otp, verify_otpE, noFaults, hget, Nat.not_le.mpr hatt]
  · simp [verify_otp, verify_otpE, noFaults, get_del_self]

/-- Witness for claim C1 at a concrete store: an OTP freshly issued at time
0 and verified with the stored code at time 10. -/
theorem verify_otp_success_deletes_witness :
    KStore.get (store_otp [] 0 "u1" "123456" "T1" 5) 10 (otpKey "u1" "T1") =
      some { otp := "123456", transaction_id := "T1", user_id := "u1", attempts := 0 } ∧
    (0 : Nat) < 3 ∧
    verify_otp (store_otp [] 0 "u1" "123456" "T1" 5) 10 "u1" "T1" "123456" 3 =
      ({ valid := true, message := "OTP verified successfully", attempts_left := 3 },
       KStore.del (store_otp [] 0 "u1" "123456" "T1" 5) (otpKey "u1" "T1")) := by
  refine ⟨by decide, by decide, ?_⟩
  exact (verify_otp_success_deletes (store_otp [] 0 "u1" "123456" "T1" 5) 10 "u1" "T1"
    { otp := "123456", transaction_id := "T1", user_id := "u1", attempts := 0 } 3
    (by decide) (by decide)).1

/-! ## Claim C9 -/

/-- Claim C9: opening a session for a user and then opening another one for
the same user leaves `read` returning exactly the second payload — the
single `session:{user}` key is unconditionally overwritten, and every entry
still stored under that key is the second payload (no merge, no trace of
the first). -/
theorem create_session_last_write_wins
    (st : KStore SessionData) (u : String) (A B : SessionData)
    (n1 em1 n2 em2 n3 : Nat) (hread : n3 < n2 + em2 * 60) :
    get_session (create_session (create_session st n1 u A em1) n2 u B em2) n3 u
      = some B ∧
    (∀ e ∈ create_session (create_session st n1 u A em1) n2 u B em2,
      e.1 = sessionKey u → e = (sessionKey u, B, some (n2 + em2 * 60))) := by
  exact ⟨get_setex_live _ _ _ _ _ _ hread, setex_key_entry _ _ _ _ _⟩

/-- Witness for claim C9 at concrete payloads: the second `open` wins. -/
theorem create_session_last_write_wins_witness :
    (10 : Nat) < 5 + 15 * 60 ∧
    get_session
      (create_session
        (create_session [] 0 "u1" { pending_transaction_id := none, extra := [("name", "A")] } 15)
        5 "u1" { pending_transaction_id := none, extra := [("name", "B")] } 15)
      10 "u1" = some { pending_transaction_id := none, extra := [("name", "B")] } := by
  refine ⟨by decide, ?_⟩
  exact (create_session_last_write_wins []
    "u1" { pending_transaction_id := none, extra := [("name", "A")] }
    { pending_transaction_id := none, extra := [("name", "B")] }
    0 15 5 15 10 (by decide)).1

/-! ## Claim C6 -/

/-- Claim C6: when the store is unavailable the security gates fail open:
`check_rate_limit` answers `allowed = true` (with `remaining =
max_requests` and `reset_in` the full window) for every identifier and
action, leaving the store untouched, and `is_token_blacklisted` answers
`false` for every token. -/
theorem store_outage_fails_open :
    (∀ (st : KStore Nat) (now : Nat) (u a : String) (maxr w : Nat),
      check_rate_limit false st now u a maxr w = (rateFailOpen maxr w, st) ∧
      (check_rate_limit false st now u a maxr w).1.allowed = true) ∧
    (∀ (bst : KStore String) (now : Nat) (tok : String),
      is_token_blacklisted false bst now tok = false) := by
  refine ⟨fun st now u a maxr w => ?_, fun bst now tok => ?_⟩
  · exact ⟨by simp [check_rate_limit], by simp [check_rate_limit, rateFailOpen]⟩
  · simp [is_token_blacklisted]

/-! ## Claim C5 -/

/-- Claim C5: with the store reachable, the authentication dependency
consults the blacklist before any cryptographic validation: a blacklisted
token is rejected with the 401 revocation error for every possible
`verify_token` oracle (even one that would accept the token), and a
non-blacklisted token is handed to `verify_token`, whose 401 error — the
invalid-token case — is returned unchanged, so a blacklisted token is
rejected identically (status 401) to an invalid one. -/
theorem blacklist_checked_before_validation
    (bst : KStore String) (now : Nat) (token : String)
    (h : is_token_blacklisted true bst now token = true) :
    (∀ verify_token : String → AuthResult,
      get_current_user true true bst now verify_token token =
        .httpError 401 "Token has been revoked. Please login again.") ∧
    (∀ (bst2 : KStore String) (now2 : Nat) (vt : String → AuthResult) (tok2 : String),
      is_token_blacklisted true bst2 now2 tok2 = false →
      get_current_user true true bst2 now2 vt tok2 = vt tok2) := by
  refine ⟨fun vt => ?_, fun bst2 now2 vt tok2 h2 => ?_⟩
  · simp [get_current_user, h]
  · simp [get_current_user, h2]

/-- Witness for claim C5: a token blacklisted at time 0 is rejected at time
5 even by an oracle that would accept every token. -/
theorem blacklist_checked_before_validation_witness :
    is_token_blacklisted true (blacklist_token [] 0 "tok" 1440) 5 "tok" = true ∧
    get_current_user true true (blacklist_token [] 0 "tok" 1440) 5
      (fun s => .ok s) "tok" =
      .httpError 401 "Token has been revoked. Please login again." := by
  refine ⟨by decide, ?_⟩
  exact (blacklist_checked_before_validation (blacklist_token [] 0 "tok" 1440) 5 "tok"
    (by decide)).1 (fun s => .ok s)

/-! ## Claim C10 -/

/-- Claim C10: OTP verification fails closed on store failure: whenever any
store operation issued by `verify_otp` raises, the call returns
`valid = false` with message "OTP verification failed" and
`attempts_left = 0` — in particular it never reports a successful
verification during a store outage. -/
theorem verify_otp_store_error_fails_closed
    (fa : OtpFaults) (st : KStore OTPData) (now : Nat)
    (u t o : String) (m : Nat)
    (h : (verify_otpE fa st now u t o m).2.2 = true) :
    (verify_otpE fa st now u t o m).1 = otpFailClosed ∧
    (verify_otpE fa st now u t o m).1.valid = false := by
  unfold verify_otpE at h ⊢
  cases hget : KStore.get st now (otpKey u t)
  all_goals simp only [hget] at h ⊢
  all_goals repeat' (first | split at h | split)
  all_goals simp_all [otpFailClosed]

/-- Witness for claim C10: the GET itself raising yields the fail-closed
result on a store that holds a matching record. -/
theorem verify_otp_store_error_fails_closed_witness :
    (verify_otpE ⟨true, false, false, false⟩ (store_otp [] 0 "u1" "123456" "T1" 5)
      10 "u1" "T1" "123456" 3).2.2 = true ∧
    (verify_otpE ⟨true, false, false, false⟩ (store_otp [] 0 "u1" "123456" "T1" 5)
      10 "u1" "T1" "123456" 3).1 = otpFailClosed := by
  refine ⟨by decide, ?_⟩
  exact (verify_otp_store_error_fails_closed ⟨true, false, false, false⟩
    (store_otp [] 0 "u1" "123456" "T1" 5) 10 "u1" "T1" "123456" 3 (by decide)).1

/-! ## Claim C3 -/

theorem otpInv_filter {m : Nat} {st : KStore OTPData}
    (h : OtpInv m st) (p : String × OTPData × Option Nat → Bool) :
    OtpInv m (st.filter p) :=
  fun e he => h e (List.mem_filter.mp he).1

theorem otpInv_setex {m : Nat} {st : KStore OTPData} {now ttl : Nat}
    {k : String} {v : OTPData} (h : OtpInv m st) (hv : v.attempts ≤ m) :
    OtpInv m (KStore.setex st now k ttl v) := by
  intro e he
  rcases List.mem_cons.mp he with h1 | h1
  · rw [h1]; exact hv
  · exact h e (List.mem_filter.mp h1).1

theorem otpInv_store_otp {m : Nat} {st : KStore OTPData} {now em : Nat}
    {u o t : String} (h : OtpInv m st) :
    OtpInv m (store_otp st now u o t em) :=
  otpInv_setex h (Nat.zero_le m)

theorem otpInv_verify_otp {m : Nat} {st : KStore OTPData} {now : Nat}
    {u t c : String} (h : OtpInv m st) :
    OtpInv m (verify_otp st now u t c m).2 := by
  unfold verify_otp verify_otpE noFaults
  cases hget : KStore.get st now (otpKey u t) with
  | none => simpa [hget] using h
  | some d =>
    by_cases hm : m ≤ d.attempts
    · simpa [hget, hm] using otpInv_filter h _
    · by_cases ho : d.otp = c
      · simpa [hget, hm, ho] using otpInv_filter h _
      · by_cases htl : KStore.ttlInt st now (otpKey u t) ≤ 0
        · simpa [hget, hm, ho, htl] using h
        · simpa [hget, hm, ho, htl] using
            otpInv_setex h (Nat.succ_le_of_lt (Nat.lt_of_not_le hm))

/-- Claim C3: the OTP record invariant.  `store_otp` creates every record
with attempt counter 0; across every sequence of `store_otp` / `verify_otp`
operations the counter of every record present in the store never exceeds
the configured maximum; a failed verification increments the counter by
exactly 1 when it is strictly below the maximum; and a verification that
finds the counter at or above the maximum deletes the record instead of
incrementing. -/
theorem otp_attempt_counter_invariant (m : Nat) :
    (∀ (st : KStore OTPData) (now : Nat) (u o t : String) (em now2 : Nat),
      now2 < now + em * 60 →
      KStore.get (store_otp st now u o t em) now2 (otpKey u t) =
        some { otp := o, transaction_id := t, user_id := u, attempts := 0 }) ∧
    (∀ (st : KStore OTPData) (ops : List OtpOp),
      OtpInv m st → OtpInv m (applyOtpOps m st ops)) ∧
    (∀ (st : KStore OTPData) (now : Nat) (u t c : String) (d : OTPData),
      KStore.get st now (otpKey u t) = some d → d.attempts < m → ¬(d.otp = c) →
      0 < KStore.ttlInt st now (otpKey u t) →
      KStore.get (verify_otp st now u t c m).2 now (otpKey u t) =
        some { d with attempts := d.attempts + 1 }) ∧
    (∀ (st : KStore OTPData) (now : Nat) (u t c : String) (d : OTPData),
      KStore.get st now (otpKey u t) = some d → m ≤ d.attempts →
      ∀ n, KStore.get (verify_otp st now u t c m).2 n (otpKey u t) = none) := by
  refine ⟨?_, ?_, ?_, ?_⟩
  · intro st now u o t em now2 h2
    exact get_setex_live _ _ _ _ _ _ h2
  · intro st ops
    induction ops generalizing st with
    | nil => exact fun h => h
    | cons op rest ih =>
      intro h
      cases op with
      | store now u o t em =>
        exact ih (store_otp st now u o t em) (otpInv_store_otp h)
      | verify now u t c =>
        exact ih (verify_otp st now u t c m).2 (otpInv_verify_otp h)
  · intro st now u t c d hget hlt hne htl
    have hmle : ¬ m ≤ d.attempts := Nat.not_le.mpr hlt
    have htl2 : ¬ KStore.ttlInt st now (otpKey u t) ≤ 0 := Int.not_le.mpr htl
    have hpos : 0 < (KStore.ttlInt st now (otpKey u t)).toNat := by omega
    simp only [verify_otp, verify_otpE, noFaults, hget, hmle, htl2, hne,
      if_false, if_true, ite_false, ite_true, beq_iff_eq]
    simpa using get_setex_live st now now _ (otpKey u t) _ (by omega)
  · intro st now u t c d hget hge n
    simp only [verify_otp, verify_otpE, noFaults, hget, if_true, ite_true]
    simpa [hge] using get_del_self st (otpKey u t) n

/-- Witness for claim C3 at concrete inputs: a freshly stored record reads
back with 0 attempts; the invariant is preserved across a concrete
issue-then-fail-twice sequence; one failed verification increments a
0-attempt record to 1; and a verification finding the counter at the
maximum deletes the record. -/
theorem otp_attempt_counter_invariant_witness :
    KStore.get (store_otp [] 0 "u1" "111111" "T1" 5) 10 (otpKey "u1" "T1") =
      some { otp := "111111", transaction_id := "T1", user_id := "u1", attempts := 0 } ∧
    OtpInv 3 (applyOtpOps 3 []
      [.store 0 "u1" "111111" "T1" 5, .verify 10 "u1" "T1" "000000",
       .verify 20 "u1" "T1" "000000"]) ∧
    KStore.get (verify_otp [(otpKey "u1" "T1",
        { otp := "111111", transaction_id := "T1", user_id := "u1", attempts := 0 },
        some 300)] 10 "u1" "T1" "000000" 3).2 10 (otpKey "u1" "T1") =
      some { otp := "111111", transaction_id := "T1", user_id := "u1", attempts := 1 } ∧
    KStore.get (verify_otp [(otpKey "u1" "T1",
        { otp := "111111", transaction_id := "T1", user_id := "u1", attempts := 3 },
        some 300)] 10 "u1" "T1" "000000" 3).2 50 (otpKey "u1" "T1") = none := by
  have h := otp_attempt_counter_invariant 3
  refine ⟨h.1 [] 0 "u1" "111111" "T1" 5 10 (by decide), ?_, ?_, ?_⟩
  · exact h.2.1 []
      [.store 0 "u1" "111111" "T1" 5, .verify 10 "u1" "T1" "000000",
       .verify 20 "u1" "T1" "000000"] (by decide)
  · exact h.2.2.1 [(otpKey "u1" "T1",
      { otp := "111111", transaction_id := "T1", user_id := "u1", attempts := 0 },
      some 300)] 10 "u1" "T1" "000000"
      { otp := "111111", transaction_id := "T1", user_id := "u1", attempts := 0 }
      (by decide) (by decide) (by decide) (by decide)
  · exact h.2.2.2 [(otpKey "u1" "T1",
      { otp := "111111", transaction_id := "T1", user_id := "u1", attempts := 3 },
      some 300)] 10 "u1" "T1" "000000"
      { otp := "111111", transaction_id := "T1", user_id := "u1", attempts := 3 }
      (by decide) (by decide) 50

/-! ## Claim C2 -/

theorem verify_otp_wrong_step
    (u t code c : String) (k exp now m : Nat) (rest : KStore OTPData)
    (hrest : KeyFree (otpKey u t) rest)
    (hnow : now < exp) (hk : k < m) (hc : ¬(code = c)) :
    verify_otp ((otpKey u t,
        { otp := code, transaction_id := t, user_id := u, attempts := k },
        some exp) :: rest) now u t c m =
      ({ valid := false,
         message := "Invalid OTP. " ++ toString (m - (k + 1)) ++ " attempts left",
         attempts_left := m - (k + 1) },
       (otpKey u t,
        { otp := code, transaction_id := t, user_id := u, attempts := k + 1 },
        some exp) :: rest) := by
  have hr : KStore.ttlInt ((otpKey u t,
      { otp := code, transaction_id := t, user_id := u, attempts := k },
      some exp) :: rest) now (otpKey u t) = (exp : Int) - (now : Int) := by
    simp [KStore.ttlInt, hnow]
  have hpos : ¬((exp : Int) - (now : Int) ≤ 0) := by omega
  have htn : now + ((exp : Int) - (now : Int)).toNat = exp := by omega
  simp [verify_otp, verify_otpE, noFaults, KStore.get, KStore.live, hnow,
    Nat.not_le.mpr hk, hc, hr, hpos, KStore.setex, List.filter_cons,
    filter_of_keyFree hrest, htn]
  omega

theorem runVerifies_length (u t : String) (m : Nat) (cs : List (Nat × String)) :
    ∀ st : KStore OTPData, (runVerifies st u t m cs).1.length = cs.length := by
  induction cs with
  | nil => intro st; rfl
  | cons p rest ih =>
    intro st
    cases p with
    | mk n c => simp [runVerifies, ih]

theorem getLast?_cons_of_ne {α : Type} (a : α) (l : List α) (h : l ≠ []) :
    (a :: l).getLast? = l.getLast? := by
  cases l with
  | nil => exact absurd rfl h
  | cons b bs => exact List.getLast?_cons_cons

theorem runVerifies_wrong
    (u t code : String) (m exp : Nat) (rest : KStore OTPData)
    (hrest : KeyFree (otpKey u t) rest) :
    ∀ (cs : List (Nat × String)) (k : Nat),
      (∀ p ∈ cs, p.1 < exp ∧ ¬(p.2 = code)) → k + cs.length ≤ m →
      (runVerifies ((otpKey u t,
          { otp := code, transaction_id := t, user_id := u, attempts := k },
          some exp) :: rest) u t m cs).2 =
        ((otpKey u t,
          { otp := code, transaction_id := t, user_id := u, attempts := k + cs.length },
          some exp) :: rest) ∧
      (cs ≠ [] →
        (runVerifies ((otpKey u t,
            { otp := code, transaction_id := t, user_id := u, attempts := k },
            some exp) :: rest) u t m cs).1.getLast? =
          some { valid := false,
                 message := "Invalid OTP. " ++ toString (m - (k + cs.length)) ++ " attempts left",
                 attempts_left := m - (k + cs.length) }) := by
  intro cs
  induction cs with
  | nil =>
    intro k _ _
    exact ⟨by simp [runVerifies], fun h => absurd rfl h⟩
  | cons p cs ih =>
    intro k hin hle
    obtain ⟨n, c⟩ := p
    have hp := hin (n, c) (List.mem_cons_self _ _)
    have hk : k < m := by
      have := hle
      simp [List.length_cons] at this
      omega
    have hstep := verify_otp_wrong_step u t code c k exp n m rest hrest hp.1 hk
      (fun hcc => hp.2 hcc.symm)
    have hrec := ih (k + 1)
      (fun q hq => hin q (List.mem_cons_of_mem _ hq))
      (by simp [List.length_cons] at hle ⊢; omega)
    constructor
    · simp only [runVerifies, hstep]
      rw [hrec.1]
      simp [List.length_cons, Nat.add_comm, Nat.add_assoc, Nat.add_left_comm]
    · intro _
      simp only [runVerifies, hstep]
      by_cases hcs : cs = []
      · subst hcs
        simp [runVerifies, Nat.add_comm]
      · have hne : (runVerifies ((otpKey u t,
            { otp := code, transaction_id := t, user_id := u, attempts := k + 1 },
            some exp) :: rest) u t m cs).1 ≠ [] := by
          intro hnil
          have := runVerifies_length u t m cs ((otpKey u t,
            { otp := code, transaction_id := t, user_id := u, attempts := k + 1 },
            some exp) :: rest)
          rw [hnil] at this
          exact hcs (List.length_eq_zero.mp this.symm)
        rw [getLast?_cons_of_ne _ _ hne, hrec.2 hcs]
        have : k + 1 + cs.length = k + (cs.length + 1) := by omega
        simp [this, List.length_cons]

/-- Claim C2: starting from a freshly issued record (attempt counter 0), a
sequence of `max_attempts` wrong-code verifications — each before the
record's expiry — ends with the `max_attempts`-th failure reporting
`attempts_left = 0`, and the first verification call thereafter, with any
code whatsoever, returns `valid = false` with message "Maximum OTP attempts
exceeded" and `attempts_left = 0` and deletes the record, leaving the key
absent at every time. -/
theorem otp_attempts_exhaustion
    (s0 : KStore OTPData) (now0 : Nat) (u code t : String) (m em : Nat)
    (hm : 0 < m)
    (cs : List (Nat × String)) (hlen : cs.length = m)
    (hcs : ∀ p ∈ cs, p.1 < now0 + em * 60 ∧ ¬(p.2 = code))
    (tf : Nat) (cf : String) (hf : tf < now0 + em * 60) :
    (runVerifies (store_otp s0 now0 u code t em) u t m cs).1.getLast? =
      some { valid := false, message := "Invalid OTP. 0 attempts left",
             attempts_left := 0 } ∧
    (verify_otp (runVerifies (store_otp s0 now0 u code t em) u t m cs).2
        tf u t cf m).1 =
      { valid := false, message := "Maximum OTP attempts exceeded",
        attempts_left := 0 } ∧
    (∀ n, KStore.get
      (verify_otp (runVerifies (store_otp s0 now0 u code t em) u t m cs).2
        tf u t cf m).2 n (otpKey u t) = none) := by
  have hrest : KeyFree (otpKey u t)
      (s0.filter (fun e => !(e.1 == otpKey u t))) := keyFree_filter _ _
  have hrun := runVerifies_wrong u t code m (now0 + em * 60)
    (s0.filter (fun e => !(e.1 == otpKey u t))) hrest cs 0 hcs (by omega)
  have hne : cs ≠ [] := by
    intro hnil
    rw [hnil] at hlen
    simp at hlen
    omega
  have hst0 : store_otp s0 now0 u code t em =
      ((otpKey u t, { otp := code, transaction_id := t, user_id := u, attempts := 0 },
        some (now0 + em * 60)) :: s0.filter (fun e => !(e.1 == otpKey u t))) := by
    simp [store_otp, KStore.setex]
  refine ⟨?_, ?_, ?_⟩
  · rw [hst0, hrun.2 hne]
    have : m - (0 + cs.length) = 0 := by omega
    rw [this]
    rfl
  · rw [hst0, hrun.1]
    simp [verify_otp, verify_otpE, noFaults, KStore.get, KStore.live, hf, hlen]
  · intro n
    rw [hst0, hrun.1]
    simp only [verify_otp, verify_otpE, noFaults, KStore.get, KStore.live]
    simp [hf, hlen, KStore.del, List.filter_cons, filter_of_keyFree hrest]
    exact get_del_self s0 (otpKey u t) n

/-- Witness for claim C2: three wrong codes against a fresh record with the
default maximum of 3, then a fourth call with the correct code. -/
theorem otp_attempts_exhaustion_witness :
    (runVerifies (store_otp [] 0 "u1" "123456" "T1" 5) "u1" "T1" 3
        [(10, "000000"), (20, "000000"), (30, "000000")]).1.getLast? =
      some { valid := false, message := "Invalid OTP. 0 attempts left",
             attempts_left := 0 } ∧
    (verify_otp (runVerifies (store_otp [] 0 "u1" "123456" "T1" 5) "u1" "T1" 3
        [(10, "000000"), (20, "000000"), (30, "000000")]).2
        40 "u1" "T1" "123456" 3).1 =
      { valid := false, message := "Maximum OTP attempts exceeded",
        attempts_left := 0 } ∧
    KStore.get
      (verify_otp (runVerifies (store_otp [] 0 "u1" "123456" "T1" 5) "u1" "T1" 3
        [(10, "000000"), (20, "000000"), (30, "000000")]).2
        40 "u1" "T1" "123456" 3).2 50 (otpKey "u1" "T1") = none := by
  have h := otp_attempts_exhaustion [] 0 "u1" "123456" "T1" 3 5 (by decide)
    [(10, "000000"), (20, "000000"), (30, "000000")] (by decide)
    (by decide) 40 "123456" (by decide)
  exact ⟨h.1, h.2.1, h.2.2 50⟩

/-! ## Claim C4 -/

theorem check_rate_limit_incr_step (u a : String) (maxr w cnt exp now : Nat)
    (rest : KStore Nat) (hnow : now < exp) (hcnt : cnt < maxr) :
    check_rate_limit true ((rateKey u a, cnt, some exp) :: rest) now u a maxr w =
      ({ allowed := true, remaining := (maxr : Int) - (cnt : Int) - 1,
         reset_in := (exp : Int) - (now : Int) },
       (rateKey u a, cnt + 1, some exp) :: rest) := by
  simp [check_rate_limit, KStore.get, KStore.live, hnow, Nat.not_le.mpr hcnt,
    KStore.incr, KStore.ttlInt]

theorem check_rate_limit_denied_step (u a : String) (maxr w cnt exp now : Nat)
    (rest : KStore Nat) (hnow : now < exp) (hcnt : maxr ≤ cnt) :
    check_rate_limit true ((rateKey u a, cnt, some exp) :: rest) now u a maxr w =
      ({ allowed := false, remaining := 0, reset_in := (exp : Int) - (now : Int) },
       (rateKey u a, cnt, some exp) :: rest) := by
  simp [check_rate_limit, KStore.get, KStore.live, hnow, hcnt, KStore.ttlInt]

theorem runChecks_inc (u a : String) (maxr w exp : Nat) (rest : KStore Nat) :
    ∀ (ts : List Nat) (cnt : Nat), (∀ x ∈ ts, x < exp) → cnt + ts.length ≤ maxr →
    runChecks ((rateKey u a, cnt, some exp) :: rest) u a maxr w ts =
      (rateAllowedResults maxr exp cnt ts,
       (rateKey u a, cnt + ts.length, some exp) :: rest) := by
  intro ts
  induction ts with
  | nil => intro cnt _ _; simp [runChecks, rateAllowedResults]
  | cons n ts ih =>
    intro cnt hin hle
    have hn : n < exp := hin n (List.mem_cons_self _ _)
    have hcnt : cnt < maxr := by
      simp [List.length_cons] at hle
      omega
    have hrec := ih (cnt + 1) (fun x hx => hin x (List.mem_cons_of_mem _ hx))
      (by simp [List.length_cons] at hle ⊢; omega)
    simp only [runChecks, check_rate_limit_incr_step u a maxr w cnt exp n rest hn hcnt,
      hrec, rateAllowedResults]
    have : cnt + 1 + ts.length = cnt + (ts.length + 1) := by omega
    simp [this, List.length_cons]

/-- Claim C4: the rate limiter is a fixed window.  With the store available
and the key absent, the first check creates the counter at 1 with the
window's TTL and allows with `remaining = max_requests - 1`; each of the
next `max_requests - 1` in-window checks increments the counter and allows
with `remaining = max_requests - newCount` and the key's remaining TTL; the
`(max_requests + 1)`-th in-window call reads a count at the maximum, is
denied reporting the remaining TTL as `reset_in` without changing the
store; and a call after the window has elapsed is allowed again with a
fresh counter at 1. -/
theorem rate_limit_fixed_window
    (st0 : KStore Nat) (n0 : Nat) (u a : String) (maxr w : Nat)
    (hw : 0 < w) (hmr : 0 < maxr)
    (h0 : KStore.get st0 n0 (rateKey u a) = none)
    (ts : List Nat) (hts : ts.length = maxr - 1)
    (htin : ∀ x ∈ ts, x < n0 + w * 60)
    (tf : Nat) (hf : tf < n0 + w * 60) (te : Nat) (hte : n0 + w * 60 ≤ te) :
    check_rate_limit true st0 n0 u a maxr w =
      ({ allowed := true, remaining := (maxr : Int) - 1,
         reset_in := ((w * 60 : Nat) : Int) },
       KStore.setex st0 n0 (rateKey u a) (w * 60) 1) ∧
    (runChecks (KStore.setex st0 n0 (rateKey u a) (w * 60) 1) u a maxr w ts).1 =
      rateAllowedResults maxr (n0 + w * 60) 1 ts ∧
    check_rate_limit true
        (runChecks (KStore.setex st0 n0 (rateKey u a) (w * 60) 1) u a maxr w ts).2
        tf u a maxr w =
      ({ allowed := false, remaining := 0,
         reset_in := ((n0 + w * 60 : Nat) : Int) - (tf : Int) },
       (runChecks (KStore.setex st0 n0 (rateKey u a) (w * 60) 1) u a maxr w ts).2) ∧
    (check_rate_limit true
        (runChecks (KStore.setex st0 n0 (rateKey u a) (w * 60) 1) u a maxr w ts).2
        te u a maxr w).1 =
      { allowed := true, remaining := (maxr : Int) - 1,
        reset_in := ((w * 60 : Nat) : Int) } ∧
    KStore.get (check_rate_limit true
        (runChecks (KStore.setex st0 n0 (rateKey u a) (w * 60) 1) u a maxr w ts).2
        te u a maxr w).2 te (rateKey u a) = some 1 := by
  have hw60 : w * 60 ≠ 0 := by omega
  have hsetex : KStore.setex st0 n0 (rateKey u a) (w * 60) 1 =
      (rateKey u a, 1, some (n0 + w * 60)) ::
        st0.filter (fun e => !(e.1 == rateKey u a)) := rfl
  have hrun := runChecks_inc u a maxr w (n0 + w * 60)
    (st0.filter (fun e => !(e.1 == rateKey u a))) ts 1 htin (by omega)
  have hfull : 1 + ts.length = maxr := by omega
  refine ⟨?_, ?_, ?_, ?_, ?_⟩
  · simp [check_rate_limit, h0, hw60]
  · rw [hsetex, hrun]
  · rw [hsetex, hrun, hfull]
    exact check_rate_limit_denied_step u a maxr w maxr (n0 + w * 60) tf _ hf le_rfl
  · rw [hsetex, hrun, hfull]
    have hdead : KStore.get ((rateKey u a, maxr, some (n0 + w * 60)) ::
        st0.filter (fun e => !(e.1 == rateKey u a))) te (rateKey u a) = none := by
      simp [KStore.get, KStore.live, Nat.not_lt.mpr hte]
    simp [check_rate_limit, hdead, hw60]
  · rw [hsetex, hrun, hfull]
    have hdead : KStore.get ((rateKey u a, maxr, some (n0 + w * 60)) ::
        st0.filter (fun e => !(e.1 == rateKey u a))) te (rateKey u a) = none := by
      simp [KStore.get, KStore.live, Nat.not_lt.mpr hte]
    simp only [check_rate_limit, hdead, hw60]
    simp only [Bool.not_true, if_false, ite_false, if_neg hw60]
    exact get_setex_live _ _ _ _ _ _ (by omega)

/-- Witness for claim C4: limit 3 per 1-minute window; calls at times 0, 10,
20 are allowed, the 4th call at time 30 is denied with 30 seconds left, and
a call at time 100 (after the window) is allowed with a fresh counter. -/
theorem rate_limit_fixed_window_witness :
    check_rate_limit true [] 0 "u1" "login" 3 1 =
      ({ allowed := true, remaining := 2, reset_in := 60 },
       KStore.setex [] 0 (rateKey "u1" "login") 60 1) ∧
    check_rate_limit true
        (runChecks (KStore.setex [] 0 (rateKey "u1" "login") 60 1)
          "u1" "login" 3 1 [10, 20]).2 30 "u1" "login" 3 1 =
      ({ allowed := false, remaining := 0, reset_in := 30 },
       (runChecks (KStore.setex [] 0 (rateKey "u1" "login") 60 1)
          "u1" "login" 3 1 [10, 20]).2) ∧
    KStore.get (check_rate_limit true
        (runChecks (KStore.setex [] 0 (rateKey "u1" "login") 60 1)
          "u1" "login" 3 1 [10, 20]).2 100 "u1" "login" 3 1).2
      100 (rateKey "u1" "login") = some 1 := by
  have h := rate_limit_fixed_window [] 0 "u1" "login" 3 1 (by decide) (by decide)
    (by decide) [10, 20] (by decide) (by decide) 30 (by decide) 100 (by decide)
  refine ⟨?_, ?_, ?_⟩
  · have h1 := h.1
    norm_num at h1 ⊢
    exact h1
  · have h3 := h.2.2.1
    norm_num at h3 ⊢
    exact h3
  · exact h.2.2.2.2

/-! ## Claim C7 -/

/-- Counterexample to claim C7: a conversational OTP verification that
resolves as a failure (wrong code against a live record) leaves the
session's `pending_transaction_id` still referring to the resolved
transaction "T1" — the claim that the field is cleared whether verification
resolves as success or as failure is false on the code. -/
theorem process_voice_otp_failure_keeps_pending :
    (process_voice_otp
      (create_session [] 0 "u1"
        { pending_transaction_id := some (some "T1"), extra := [] } 15)
      (store_otp [] 0 "u1" "123456" "T1" 5) 10 "u1" "000000").1 = "failed" ∧
    (get_session (process_voice_otp
      (create_session [] 0 "u1"
        { pending_transaction_id := some (some "T1"), extra := [] } 15)
      (store_otp [] 0 "u1" "123456" "T1" 5) 10 "u1" "000000").2.1
      10 "u1").map SessionData.pending_transaction_id =
      some (some (some "T1")) := by
  constructor <;> decide

/-- Claim C7 (amended): on the conversational path the session's
`pending_transaction_id` is cleared (set to `None` and the session
re-created with a 1440-minute TTL) only when the verification resolves as a
success; when it resolves as a failure the session store is left
untouched, so the pending transaction id is retained. -/
theorem process_voice_otp_pending_cleared_on_success
    (sst : KStore SessionData) (ost : KStore OTPData) (now : Nat)
    (u otp : String) (session : SessionData) (tid : Option String)
    (hsess : get_session sst now u = some session)
    (hp : session.pending_transaction_id = some tid) :
    ((process_voice_otp sst ost now u otp).1 = "verified" →
      ∀ n2, n2 < now + 1440 * 60 →
      get_session (process_voice_otp sst ost now u otp).2.1 n2 u =
        some { session with pending_transaction_id := some none }) ∧
    ((process_voice_otp sst ost now u otp).1 = "failed" →
      (process_voice_otp sst ost now u otp).2.1 = sst) := by
  by_cases hv : (verify_otp ost now u (pyStr tid) otp 3).1.valid = true
  · constructor
    · intro _ n2 hn2
      simp only [process_voice_otp, hsess, hp, hv, if_true, ite_true]
      exact get_setex_live _ _ _ _ _ _ hn2
    · intro hcontra
      simp only [process_voice_otp, hsess, hp, hv, if_true, ite_true] at hcontra
      exact absurd hcontra (by decide)
  · constructor
    · intro hcontra
      simp only [process_voice_otp, hsess, hp, hv, if_false, ite_false,
        Bool.false_eq_true] at hcontra
      exact absurd hcontra (by decide)
    · intro _
      simp only [process_voice_otp, hsess, hp, hv, if_false, ite_false,
        Bool.false_eq_true]

/-- Witness for the amended claim C7: a successful conversational
verification clears the pending transaction; a failed one leaves the
session store unchanged. -/
theorem process_voice_otp_pending_cleared_on_success_witness :
    get_session (process_voice_otp
      (create_session [] 0 "u1"
        { pending_transaction_id := some (some "T1"), extra := [] } 15)
      (store_otp [] 0 "u1" "123456" "T1" 5) 10 "u1" "123456").2.1 100 "u1" =
      some { pending_transaction_id := some none, extra := [] } ∧
    (process_voice_otp
      (create_session [] 0 "u1"
        { pending_transaction_id := some (some "T1"), extra := [] } 15)
      (store_otp [] 0 "u1" "123456" "T1" 5) 10 "u1" "000000").2.1 =
      create_session [] 0 "u1"
        { pending_transaction_id := some (some "T1"), extra := [] } 15 := by
  constructor
  · exact (process_voice_otp_pending_cleared_on_success
      (create_session [] 0 "u1"
        { pending_transaction_id := some (some "T1"), extra := [] } 15)
      (store_otp [] 0 "u1" "123456" "T1" 5) 10 "u1" "123456"
      { pending_transaction_id := some (some "T1"), extra := [] }
      (some "T1") (by decide) (by decide)).1 (by decide) 100 (by decide)
  · exact (process_voice_otp_pending_cleared_on_success
      (create_session [] 0 "u1"
        { pending_transaction_id := some (some "T1"), extra := [] } 15)
      (store_otp [] 0 "u1" "123456" "T1" 5) 10 "u1" "000000"
      { pending_transaction_id := some (some "T1"), extra := [] }
      (some "T1") (by decide) (by decide)).2 (by decide)

/-! ## Claim C8 -/

theorem toDigitsCore_append (fuel : Nat) :
    ∀ (n : Nat) (ds : List Char),
      Nat.toDigitsCore 10 fuel n ds = Nat.toDigitsCore 10 fuel n [] ++ ds := by
  induction fuel with
  | zero => intro n ds; simp [Nat.toDigitsCore]
  | succ fuel ih =>
    intro n ds
    simp only [Nat.toDigitsCore]
    by_cases h : n / 10 = 0
    · simp [h]
    · simp only [h, if_false, ite_false]
      rw [ih (n / 10) [Nat.digitChar (n % 10)],
        ih (n / 10) (Nat.digitChar (n % 10) :: ds), List.append_assoc]
      rfl

theorem digitChar_val : ∀ k, k < 10 → (Nat.digitChar k).toNat - 48 = k := by decide

theorem decimalVal_append_digit (xs : List Char) (c : Char) :
    decimalVal (xs ++ [c]) = decimalVal xs * 10 + (c.toNat - 48) := by
  simp [decimalVal, List.foldl_append]

theorem decimalVal_toDigitsCore :
    ∀ (fuel n : Nat), n < fuel →
      decimalVal (Nat.toDigitsCore 10 fuel n []) = n := by
  intro fuel
  induction fuel with
  | zero => intro n h; omega
  | succ fuel ih =>
    intro n h
    simp only [Nat.toDigitsCore]
    by_cases h10 : n / 10 = 0
    · have hn10 : n < 10 := by omega
      simp [h10, decimalVal, Nat.mod_eq_of_lt hn10]
      exact digitChar_val n hn10
    · have hrec : n / 10 < fuel := by
        have h1 : n / 10 < n := Nat.div_lt_self (by omega) (by omega)
        omega
      simp only [h10, if_false, ite_false]
      rw [toDigitsCore_append fuel (n / 10) [Nat.digitChar (n % 10)],
        decimalVal_append_digit, ih (n / 10) hrec,
        digitChar_val (n % 10) (Nat.mod_lt n (by omega))]
      omega

theorem decimalVal_natRepr (n : Nat) : decimalVal (Nat.repr n).data = n :=
  decimalVal_toDigitsCore (n + 1) n (Nat.lt_succ_self n)

theorem natRepr_injective {a b : Nat} (h : Nat.repr a = Nat.repr b) : a = b := by
  have := congrArg (fun s => decimalVal s.data) h
  simpa [decimalVal_natRepr] using this

/-- Counterexample to claim C8: nothing in the code compares a fresh draw
with the previously issued code, so two consecutive issuances for the same
(user, transaction) pair whose RNG draws coincide (both draws are legal
`randint(100000, 999999)` outcomes) store the same code within the
5-minute validity window — the claim that the newly issued code always
differs from the most recently issued one is false. -/
theorem issue_transfer_otp_repeat_draw :
    (100000 ≤ 123456 ∧ 123456 ≤ 999999) ∧
    (KStore.get (issue_transfer_otp [] 0 "u1" "T1" 123456) 0
      (otpKey "u1" "T1")).map OTPData.otp = some "123456" ∧
    (KStore.get (issue_transfer_otp (issue_transfer_otp [] 0 "u1" "T1" 123456)
        60 "u1" "T1" 123456) 60
      (otpKey "u1" "T1")).map OTPData.otp = some "123456" := by
  refine ⟨by decide, ?_, ?_⟩ <;> decide

/-- Claim C8 (amended): each issuance stores exactly the freshly drawn code
(the decimal string of the RNG draw) and overwrites the previous record for
the same (user, transaction) key — attempt counter reset to 0 and TTL reset
to 5 minutes, with no other entry left under the key — and the new code
differs from the previously issued one whenever the two RNG draws differ;
equality of consecutive codes is possible exactly when the RNG repeats a
draw, which the code does not prevent. -/
theorem issue_transfer_otp_overwrites_fresh
    (st : KStore OTPData) (n1 n2 : Nat) (u t : String) (d1 d2 : Nat)
    (hne : d1 ≠ d2) (now2 : Nat) (hlive : now2 < n2 + 5 * 60) :
    KStore.get (issue_transfer_otp (issue_transfer_otp st n1 u t d1) n2 u t d2)
      now2 (otpKey u t) =
      some { otp := generate_otp d2, transaction_id := t, user_id := u,
             attempts := 0 } ∧
    generate_otp d2 ≠ generate_otp d1 ∧
    decimalVal (generate_otp d2).data = d2 ∧
    (∀ e ∈ issue_transfer_otp (issue_transfer_otp st n1 u t d1) n2 u t d2,
      e.1 = otpKey u t →
      e = (otpKey u t,
        { otp := generate_otp d2, transaction_id := t, user_id := u,
          attempts := 0 }, some (n2 + 5 * 60))) := by
  refine ⟨get_setex_live _ _ _ _ _ _ hlive, ?_, decimalVal_natRepr d2, ?_⟩
  · intro h
    exact hne (natRepr_injective h).symm
  · exact setex_key_entry _ _ _ _ _

/-- Witness for the amended claim C8: distinct draws 123456 and 654321 give
distinct codes and the second record overwrites the first. -/
theorem issue_transfer_otp_overwrites_fresh_witness :
    KStore.get (issue_transfer_otp (issue_transfer_otp [] 0 "u1" "T1" 123456)
        60 "u1" "T1" 654321) 70 (otpKey "u1" "T1") =
      some { otp := generate_otp 654321, transaction_id := "T1",
             user_id := "u1", attempts := 0 } ∧
    generate_otp 654321 ≠ generate_otp 123456 := by
  have h := issue_transfer_otp_overwrites_fresh [] 0 60 "u1" "T1" 123456 654321
    (by decide) 70 (by decide)
  exact ⟨h.1, h.2.1⟩

end Finvoice
